import Mathlib

/-!
Shallow embedding of the core logic of the up-vsomeip-helloworld example:
the wire codec (`src/hello_utils.cc`), the request handler and broadcast
gate (`src/hello_service.cc`), the client-side request correlator
(`src/hello_client.cc`) and the periodic timer wait computation
(`src/timer.cc`).

Byte buffers are `List Nat`, each element one byte value; C `int32_t`
values are `Int` with explicit two's-complement reduction modulo
2^32 = 4294967296 where the code converts between signed and unsigned.
-/

namespace HelloExample

/-- C conversion `uint32_t -> int32_t` (two's complement reinterpretation
of the low 32 bits), as performed by the `return value;` of
`deserialize_int32` in `hello_utils.cc`. -/
def toInt32 (u : Nat) : Int :=
  if u % 4294967296 < 2147483648 then ((u % 4294967296 : Nat) : Int)
  else ((u % 4294967296 : Nat) : Int) - 4294967296

/-- `VSOMEIP_LONG_BYTE3(x)`: bits 24..31 of the 32-bit value. -/
def long_byte3 (u : Nat) : Nat := u / 16777216 % 256

/-- `VSOMEIP_LONG_BYTE2(x)`: bits 16..23 of the 32-bit value. -/
def long_byte2 (u : Nat) : Nat := u / 65536 % 256

/-- `VSOMEIP_LONG_BYTE1(x)`: bits 8..15 of the 32-bit value. -/
def long_byte1 (u : Nat) : Nat := u / 256 % 256

/-- `VSOMEIP_LONG_BYTE0(x)`: bits 0..7 of the 32-bit value. -/
def long_byte0 (u : Nat) : Nat := u % 256

/-- `VSOMEIP_BYTES_TO_LONG(x0,x1,x2,x3)`: big-endian reassembly of four
bytes; the C macro ors the shifted bytes, which for byte values (< 256)
equals this sum. -/
def bytes_to_long (b0 b1 b2 b3 : Nat) : Nat :=
  b0 * 16777216 + b1 * 65536 + b2 * 256 + b3

/-- `serialize_int32` (`hello_utils.cc:52`): pushes the four bytes of
`value` in big-endian order (`VSOMEIP_LONG_BYTE3` first). The `int32_t`
argument is reduced to its unsigned 32-bit representation. -/
def serialize_int32 (value : Int) : List Nat :=
  let u := (value % 4294967296).toNat
  [long_byte3 u, long_byte2 u, long_byte1 u, long_byte0 u]

/-- `deserialize_int32` (`hello_utils.cc:59`): if `index + 4 >= data_size`
it logs and returns `-1` without advancing `index`; otherwise it returns
the big-endian value of the four bytes at `index` (as `int32_t`) and
advances `index` by 4.  Returns the pair `(value, new index)`. -/
def deserialize_int32 (data : List Nat) (index : Nat) : Int × Nat :=
  if index + 4 ≥ data.length then (-1, index)
  else (toInt32 (bytes_to_long (data.getD index 0) (data.getD (index + 1) 0)
      (data.getD (index + 2) 0) (data.getD (index + 3) 0)), index + 4)

/-- `serialize_string` (`hello_utils.cc:85`, AUTOSAR_WIRE mode): a 4-byte
big-endian length field holding `value.size() + 1`, then the raw string
bytes, then a single `0` terminator byte. -/
def serialize_string (value : List Nat) : List Nat :=
  serialize_int32 ((value.length : Int) + 1) ++ value ++ [0]

/-- `deserialize_string` (`hello_utils.cc:98`, AUTOSAR_WIRE mode).
Mirrors the source: error (`return {}`) when `index + 4 >= data_size`;
then `str_size` is read by `deserialize_int32`; error when
`str_size > data_size - 4` — an `int32_t` vs `uint32_t` comparison, so
`str_size` is converted to unsigned first; otherwise the code constructs
`std::string(data + index, str_size - 1)`, whose second argument is
`str_size - 1` converted to `size_t` (reduced modulo 2^64).  The model
returns `some (requested_count, bytes actually available from index)`
on that path; the real constructor reads `requested_count` bytes from
the pointer, out of bounds whenever `requested_count` exceeds the
available bytes. -/
def deserialize_string (data : List Nat) (index : Nat) : Option (Nat × List Nat) :=
  if index + 4 ≥ data.length then none
  else
    let r := deserialize_int32 data index
    let str_size : Int := r.1
    if (str_size % 4294967296).toNat > data.length - 4 then none
    else
      let requested := ((str_size - 1) % 18446744073709551616).toNat
      some (requested, (data.drop r.2).take requested)

/-- `HelloRequest` (`hello_proto.h`): the message as raw bytes. -/
structure HelloRequest where
  message : List Nat
  deriving DecidableEq

/-- `HelloResponse` (`hello_proto.h`): the reply as raw bytes. -/
structure HelloResponse where
  reply : List Nat
  deriving DecidableEq

/-- `serialize_hello_request` (`hello_utils.cc:114`, default non-AUTOSAR
wire): the raw message bytes followed by the `0` terminator. -/
def serialize_hello_request (request : HelloRequest) : List Nat :=
  request.message ++ [0]

/-- `deserialize_hello_request` (`hello_utils.cc:128`): succeeds iff the
payload is non-empty, taking all bytes but the final terminator. -/
def deserialize_hello_request (payload : List Nat) : Option HelloRequest :=
  if payload.length > 0 then some ⟨payload.take (payload.length - 1)⟩
  else none

/-- `serialize_hello_response` (`hello_utils.cc:150`, default wire): the
raw reply bytes followed by the `0` terminator. -/
def serialize_hello_response (response : HelloResponse) : List Nat :=
  response.reply ++ [0]

/-- `deserialize_hello_response` (`hello_utils.cc:162`): succeeds iff the
payload is non-empty, taking all bytes but the final terminator. -/
def deserialize_hello_response (payload : List Nat) : Option HelloResponse :=
  if payload.length > 0 then some ⟨payload.take (payload.length - 1)⟩
  else none

/-- `TimeOfDay` (`hello_proto.h`): four `int32_t` fields. -/
structure TimeOfDay where
  hours : Int
  minutes : Int
  seconds : Int
  nanos : Int
  deriving DecidableEq

/-- `HelloEvent` (`hello_proto.h`): a `TimeOfDay` plus the numeric
timer-id tag (the `TimerID` enum value, one byte on the wire). -/
structure HelloEvent where
  time_of_day : TimeOfDay
  timer_id : Nat
  deriving DecidableEq

/-- `HELLO_EVENT_PAYLOAD_SIZE` (`hello_proto.h`). -/
def HELLO_EVENT_PAYLOAD_SIZE : Nat := 17

/-- `serialize_hello_event` (`hello_utils.cc:230`): four big-endian
int32 fields then the timer-id tag truncated to one byte
(`static_cast<vsomeip::byte_t>`). The C function always returns true. -/
def serialize_hello_event (event : HelloEvent) : List Nat :=
  serialize_int32 event.time_of_day.hours ++
  serialize_int32 event.time_of_day.minutes ++
  serialize_int32 event.time_of_day.seconds ++
  serialize_int32 event.time_of_day.nanos ++
  [event.timer_id % 256]

/-- `deserialize_hello_event` (`hello_utils.cc:214`): fails when fewer
than `HELLO_EVENT_PAYLOAD_SIZE` bytes are present; otherwise reads four
int32 fields via `deserialize_int32`, then one tag byte, and succeeds iff
the final index equals `HELLO_EVENT_PAYLOAD_SIZE`. -/
def deserialize_hello_event (data : List Nat) : Option HelloEvent :=
  if data.length < HELLO_EVENT_PAYLOAD_SIZE then none
  else
    let r1 := deserialize_int32 data 0
    let r2 := deserialize_int32 data r1.2
    let r3 := deserialize_int32 data r2.2
    let r4 := deserialize_int32 data r3.2
    let tag := data.getD r4.2 0
    let index := r4.2 + 1
    if index = HELLO_EVENT_PAYLOAD_SIZE then
      some ⟨⟨r1.1, r2.1, r3.1, r4.1⟩, tag⟩
    else none

/-! ## hello_service.cc: request handler, broadcast gate, subscriptions -/

/-- vsomeip protocol version constant compared by `on_message_cb`
(`VSOMEIP_PROTOCOL_VERSION` in the vsomeip headers). -/
def VSOMEIP_PROTOCOL_VERSION : Nat := 1

/-- `vsomeip::ANY_MAJOR` (0xFF in the vsomeip headers). -/
def ANY_MAJOR : Nat := 255

/-- SOME/IP return codes used by the hello service and client. -/
inductive ReturnCode where
  | E_OK
  | E_NOT_OK
  | E_UNKNOWN_SERVICE
  | E_UNKNOWN_METHOD
  | E_WRONG_PROTOCOL_VERSION
  | E_WRONG_INTERFACE_VERSION
  | E_MALFORMED_MESSAGE
  | E_UNKNOWN
  deriving DecidableEq

/-- `service_config_t` (`hello_service.cc:59`), restricted to the fields
`on_message_cb` reads; `used_services` is the `std::set` of alternative
service ids. -/
structure service_config where
  service_id : Nat
  instance_id : Nat
  major_version : Nat
  method_id : Nat
  used_services : List Nat
  deriving DecidableEq

/-- The header fields and payload of an inbound vsomeip request message
as read by `hello_service::on_message_cb`. -/
structure someip_message where
  protocol_version : Nat
  service : Nat
  inst : Nat
  interface_version : Nat
  method : Nat
  payload : List Nat
  deriving DecidableEq

/-- ASCII bytes of the greeting "Hello " prepended by the service. -/
def hello_greeting : List Nat := [72, 101, 108, 108, 111, 32]

/-- `hello_service::on_message_cb` (`hello_service.cc:353`): the response
it sends, as `(return code, response payload)`.  `create_response` starts
from return code `E_OK` and an empty payload; the error branches only set
the return code.  The two final branches of the source `if` chain
(unreachable: their conditions are subsumed by earlier branches) `return`
without sending, modelled as `none`. -/
def on_message_cb (cfg : service_config) (req : someip_message) :
    Option (ReturnCode × List Nat) :=
  if req.protocol_version ≠ VSOMEIP_PROTOCOL_VERSION then
    some (.E_WRONG_PROTOCOL_VERSION, [])
  else if req.service ≠ cfg.service_id ∧ req.service ∉ cfg.used_services then
    some (.E_UNKNOWN_SERVICE, [])
  else if req.interface_version ≠ cfg.major_version ∧ req.interface_version ≠ ANY_MAJOR then
    some (.E_WRONG_INTERFACE_VERSION, [])
  else if req.inst ≠ cfg.instance_id then
    some (.E_UNKNOWN, [])
  else if req.service = cfg.service_id ∨ req.service ∈ cfg.used_services then
    match deserialize_hello_request req.payload with
    | some r => some (.E_OK, serialize_hello_response ⟨hello_greeting ++ r.message⟩)
    | none => some (.E_MALFORMED_MESSAGE, [])
  else if req.inst ≠ cfg.instance_id then
    none
  else if req.method ≠ cfg.method_id then
    none
  else
    some (.E_OK, [])

/-- The service-side state read by `hello_service::notify_event`:
`is_offered_`, `running_` and the atomic `subscribe_count_`. -/
structure NotifyState where
  is_offered : Bool
  running : Bool
  subscribe_count : Int
  deriving DecidableEq

/-- `hello_service::notify_event` (`hello_service.cc:599`): returns
`(result, emission)` where `result` is the C++ return value and
`emission` is `some (timer id, serialized payload)` exactly when the
event reaches `app_->notify` (the payload buffer is `payload_[timer_id]`,
scoped per timer id).  `serialize_hello_event` always succeeds in the
source, so the `return false` branch is unreachable. -/
def notify_event (st : NotifyState) (event : HelloEvent) :
    Bool × Option (Nat × List Nat) :=
  if !st.is_offered || !st.running then (true, none)
  else if st.subscribe_count ≤ 0 then (true, none)
  else (true, some (event.timer_id, serialize_hello_event event))

/-- The counter update of `hello_service::on_subscription_cb`
(`hello_service.cc:339`): `subscribe_count_++` on a subscribe
notification, `subscribe_count_--` on an unsubscribe, with no guard. -/
def on_subscription_count (count : Int) (is_subscribed : Bool) : Int :=
  if is_subscribed then count + 1 else count - 1

/-- Folds a sequence of subscribe (`true`) / unsubscribe (`false`)
notifications through `on_subscription_count`. -/
def run_subscriptions (count : Int) : List Bool → Int
  | [] => count
  | e :: rest => run_subscriptions (on_subscription_count count e) rest

/-! ## hello_client.cc: request correlator -/

/-- An empty `HelloResponse` (`{}` in the source). -/
def empty_response : HelloResponse := ⟨[]⟩

/-- The client-side correlator state: `running_`, the active correlation
id `hello_req_id_` and the stored reply `hello_resp_`. -/
structure CorrelatorState where
  running : Bool
  hello_req_id : Nat
  hello_resp : HelloResponse
  deriving DecidableEq

/-- `hello_client::on_hello_reply` (`hello_client.cc:460`): decodes the
reply payload into `response` (left empty when the return code is not
`E_OK` or deserialization fails), then — only if the echoed request id
equals `hello_req_id_` — stores it in `hello_resp_`, clears
`hello_req_id_` to 0 and notifies the waiting caller; otherwise the
stray reply is only logged.  Returns the new state and whether
`request_condition_.notify_one()` was called. -/
def on_hello_reply (st : CorrelatorState) (req_id : Nat) (rc : ReturnCode)
    (payload : List Nat) : CorrelatorState × Bool :=
  let response : HelloResponse :=
    if rc = .E_OK then
      match deserialize_hello_response payload with
      | some r => r
      | none => ⟨[]⟩
    else ⟨[]⟩
  if st.hello_req_id = req_id then
    ({ st with hello_req_id := 0, hello_resp := response }, true)
  else (st, false)

/-- How the correlator's 5-second wait in `hello_client::send_hello`
ends: either `wait_for` reports `cv_status::timeout`, or the condition
variable was notified (by `on_hello_reply` or by `stop`). -/
inductive WaitOutcome where
  | timeout
  | notified
  deriving DecidableEq

/-- The wait phase of `hello_client::send_hello`
(`hello_client.cc:641-661`): on timeout return the empty response `{}`;
when woken with `running_ == false` (shutdown via `stop`) return `{}`;
otherwise return the stored `hello_resp_`. -/
def send_hello_wait (st : CorrelatorState) (w : WaitOutcome) : HelloResponse :=
  match w with
  | .timeout => empty_response
  | .notified => if st.running = false then empty_response else st.hello_resp

/-! ## timer.cc: periodic wait computation -/

/-- The next-wait computation of `Timer::timer_thread`
(`timer.cc:96-101`): `to_wait_us = interval * 1000 - elapsed_us`, floored
at 1 (microsecond).  `interval` is the nominal period in milliseconds;
`elapsed_us` the callback's execution time in microseconds (the source
truncates the `double` microsecond count on assignment to `int64_t`). -/
def timer_next_wait_us (interval_ms elapsed_us : Int) : Int :=
  let d := interval_ms * 1000 - elapsed_us
  if d < 1 then 1 else d

/-- Modelled from the spec: "Next wait = `max(1, P - E)` milliseconds",
with the nominal period `P` and the callback's elapsed time `E` both in
milliseconds.  Stated only to compare the spec's claimed formula with
`timer_next_wait_us` from the source. -/
def spec_next_wait_ms (P E : Int) : Int := max 1 (P - E)

/-! ## Helper lemmas -/

lemma take_len_append (l m : List Nat) : (l ++ m).take l.length = l :=
  List.take_left l m

lemma getD_take_of_lt (l : List Nat) (n i : Nat) (h : i < n) :
    (l.take n).getD i 0 = l.getD i 0 := by
  simp [List.getD_eq_getElem?_getD, List.getElem?_take, h]

lemma deserialize_int32_as_success (data : List Nat) (i : Nat) (h : i + 4 < data.length) :
    deserialize_int32 data i =
      (toInt32 (bytes_to_long (data.getD i 0) (data.getD (i + 1) 0) (data.getD (i + 2) 0)
        (data.getD (i + 3) 0)), i + 4) := by
  unfold deserialize_int32
  rw [if_neg (by omega)]

lemma toInt32_serialize (v : Int) (h1 : -2147483648 ≤ v) (h2 : v < 2147483648) :
    toInt32 (bytes_to_long (long_byte3 (v % 4294967296).toNat) (long_byte2 (v % 4294967296).toNat)
      (long_byte1 (v % 4294967296).toNat) (long_byte0 (v % 4294967296).toNat)) = v := by
  unfold toInt32 bytes_to_long long_byte3 long_byte2 long_byte1 long_byte0
  split <;> omega

lemma hello_response_roundtrip (r : HelloResponse) :
    deserialize_hello_response (serialize_hello_response r) = some r := by
  obtain ⟨reply⟩ := r
  simp [serialize_hello_response, deserialize_hello_response, take_len_append]

lemma deserialize_serialize_event (vh vm vs vn : Int) (tid : Nat) :
    deserialize_hello_event (serialize_hello_event ⟨⟨vh, vm, vs, vn⟩, tid⟩) =
      some ⟨⟨toInt32 (bytes_to_long (long_byte3 (vh % 4294967296).toNat)
                (long_byte2 (vh % 4294967296).toNat) (long_byte1 (vh % 4294967296).toNat)
                (long_byte0 (vh % 4294967296).toNat)),
             toInt32 (bytes_to_long (long_byte3 (vm % 4294967296).toNat)
                (long_byte2 (vm % 4294967296).toNat) (long_byte1 (vm % 4294967296).toNat)
                (long_byte0 (vm % 4294967296).toNat)),
             toInt32 (bytes_to_long (long_byte3 (vs % 4294967296).toNat)
                (long_byte2 (vs % 4294967296).toNat) (long_byte1 (vs % 4294967296).toNat)
                (long_byte0 (vs % 4294967296).toNat)),
             toInt32 (bytes_to_long (long_byte3 (vn % 4294967296).toNat)
                (long_byte2 (vn % 4294967296).toNat) (long_byte1 (vn % 4294967296).toNat)
                (long_byte0 (vn % 4294967296).toNat))⟩, tid % 256⟩ := rfl

lemma deserialize_hello_event_of_long (data : List Nat) (h : 17 ≤ data.length) :
    deserialize_hello_event data =
      some ⟨⟨toInt32 (bytes_to_long (data.getD 0 0) (data.getD 1 0) (data.getD 2 0) (data.getD 3 0)),
             toInt32 (bytes_to_long (data.getD 4 0) (data.getD 5 0) (data.getD 6 0) (data.getD 7 0)),
             toInt32 (bytes_to_long (data.getD 8 0) (data.getD 9 0) (data.getD 10 0) (data.getD 11 0)),
             toInt32 (bytes_to_long (data.getD 12 0) (data.getD 13 0) (data.getD 14 0)
               (data.getD 15 0))⟩,
            data.getD 16 0⟩ := by
  have h0 := deserialize_int32_as_success data 0 (by omega)
  have h4 := deserialize_int32_as_success data 4 (by omega)
  have h8 := deserialize_int32_as_success data 8 (by omega)
  have h12 := deserialize_int32_as_success data 12 (by omega)
  simp [deserialize_hello_event, HELLO_EVENT_PAYLOAD_SIZE, h0, h4, h8, h12,
    show ¬ data.length < 17 by omega]

lemma run_subscriptions_eq (evs : List Bool) :
    ∀ c : Int, run_subscriptions c evs = c + evs.count true - evs.count false := by
  induction evs with
  | nil => intro c; simp [run_subscriptions]
  | cons e rest ih =>
    intro c
    cases e <;> simp [run_subscriptions, on_subscription_count, ih, List.count_cons] <;> omega

lemma notify_event_eq (o r : Bool) (c : Int) (event : HelloEvent) :
    notify_event ⟨o, r, c⟩ event =
      if o = true ∧ r = true ∧ 0 < c then
        (true, some (event.timer_id, serialize_hello_event event))
      else (true, none) := by
  rcases le_or_lt c 0 with hc | hc
  · have hc2 : ¬ (0 : Int) < c := not_lt.mpr hc
    cases o <;> cases r <;> simp [notify_event, hc, hc2]
  · have hc2 : ¬ c ≤ 0 := not_le.mpr hc
    cases o <;> cases r <;> simp [notify_event, hc, hc2]

/-! ## Claim theorems -/

/-- C1: every inbound request that passes the protocol checks (protocol
version, known service, matching interface version, matching instance)
and whose payload decodes to a message `m` is answered with return code
`E_OK` and a payload that decodes back to "Hello " ++ `m`. -/
theorem C1_request_reply_ok (cfg : service_config) (req : someip_message) (m : HelloRequest)
    (hpv : req.protocol_version = VSOMEIP_PROTOCOL_VERSION)
    (hsv : req.service = cfg.service_id ∨ req.service ∈ cfg.used_services)
    (hiv : req.interface_version = cfg.major_version ∨ req.interface_version = ANY_MAJOR)
    (hin : req.inst = cfg.instance_id)
    (hm : deserialize_hello_request req.payload = some m) :
    on_message_cb cfg req =
      some (.E_OK, serialize_hello_response ⟨hello_greeting ++ m.message⟩) ∧
    deserialize_hello_response (serialize_hello_response ⟨hello_greeting ++ m.message⟩) =
      some ⟨hello_greeting ++ m.message⟩ := by
  refine ⟨?_, hello_response_roundtrip ⟨hello_greeting ++ m.message⟩⟩
  unfold on_message_cb
  rw [if_neg (by simp [hpv]), if_neg (by tauto), if_neg (by tauto), if_neg (by simp [hin]),
    if_pos hsv, hm]

/-- C1 witness: the request "World" (sent to the default service id
0x6000, instance 1, interface version matching) is answered `E_OK` with a
payload decoding to "Hello World". -/
theorem C1_request_reply_ok_world :
    on_message_cb ⟨24576, 1, 2, 32769, [24576]⟩
        ⟨1, 24576, 1, 2, 32769, [87, 111, 114, 108, 100, 0]⟩ =
      some (.E_OK, [72, 101, 108, 108, 111, 32, 87, 111, 114, 108, 100, 0]) ∧
    deserialize_hello_response [72, 101, 108, 108, 111, 32, 87, 111, 114, 108, 100, 0] =
      some ⟨[72, 101, 108, 108, 111, 32, 87, 111, 114, 108, 100]⟩ := by
  have h := C1_request_reply_ok ⟨24576, 1, 2, 32769, [24576]⟩
    ⟨1, 24576, 1, 2, 32769, [87, 111, 114, 108, 100, 0]⟩
    ⟨[87, 111, 114, 108, 100]⟩ rfl (Or.inl rfl) (Or.inl rfl) rfl (by decide)
  exact ⟨h.1.trans (by decide), h.2.trans (by decide)⟩

/-- C2: for every `TimerEvent` with int32 field values and a one-byte
timer-id tag, encoding produces exactly 17 bytes and decoding those bytes
yields the event back unchanged. -/
theorem C2_timer_event_roundtrip (e : HelloEvent)
    (hh : -2147483648 ≤ e.time_of_day.hours ∧ e.time_of_day.hours < 2147483648)
    (hm : -2147483648 ≤ e.time_of_day.minutes ∧ e.time_of_day.minutes < 2147483648)
    (hs : -2147483648 ≤ e.time_of_day.seconds ∧ e.time_of_day.seconds < 2147483648)
    (hn : -2147483648 ≤ e.time_of_day.nanos ∧ e.time_of_day.nanos < 2147483648)
    (ht : e.timer_id < 256) :
    (serialize_hello_event e).length = 17 ∧
    deserialize_hello_event (serialize_hello_event e) = some e := by
  obtain ⟨⟨vh, vm, vs, vn⟩, tid⟩ := e
  dsimp only at hh hm hs hn ht
  refine ⟨rfl, ?_⟩
  rw [deserialize_serialize_event, toInt32_serialize vh hh.1 hh.2, toInt32_serialize vm hm.1 hm.2,
    toInt32_serialize vs hs.1 hs.2, toInt32_serialize vn hn.1 hn.2, Nat.mod_eq_of_lt ht]

/-- C2 witness: a concrete event (with a negative seconds field and tag
9) encodes to 17 bytes and round-trips. -/
theorem C2_timer_event_roundtrip_inst :
    (serialize_hello_event ⟨⟨23, 59, -1, 999999999⟩, 9⟩).length = 17 ∧
    deserialize_hello_event (serialize_hello_event ⟨⟨23, 59, -1, 999999999⟩, 9⟩) =
      some ⟨⟨23, 59, -1, 999999999⟩, 9⟩ :=
  C2_timer_event_roundtrip ⟨⟨23, 59, -1, 999999999⟩, 9⟩ (by decide) (by decide) (by decide)
    (by decide) (by decide)

/-- C3 counterexample: the claim says the next wait is
`max(1, P - E)` milliseconds, never shorter than one millisecond.  With
nominal period P = 1 ms and elapsed callback time 2000 µs (2 ms) the
source computes a wait of 1 µs, while the claimed formula gives 1 ms
(1000 µs); the wait is shorter than one millisecond. -/
theorem C3_wait_floor_counterexample :
    timer_next_wait_us 1 2000 = 1 ∧ 1000 * spec_next_wait_ms 1 2 = 1000 ∧
    timer_next_wait_us 1 2000 < 1000 := by decide

/-- C3 amended: the wait is computed in microseconds:
`max(1, 1000·P − E)` µs for a nominal period P ms and elapsed time E µs,
so it is never shorter than one microsecond (the busy-loop floor); it
agrees with the spec's `max(1, P − E)` ms exactly when the elapsed time
is a whole number of milliseconds at most P − 1. -/
theorem C3_wait_floor_amended (P E Ems : Int) :
    timer_next_wait_us P E = max 1 (P * 1000 - E) ∧
    1 ≤ timer_next_wait_us P E ∧
    (Ems + 1 ≤ P → timer_next_wait_us P (1000 * Ems) = 1000 * spec_next_wait_ms P Ems) := by
  simp only [timer_next_wait_us, spec_next_wait_ms]
  refine ⟨?_, ?_, fun h => ?_⟩
  · rw [max_def]; split <;> split <;> omega
  · split <;> omega
  · rw [max_def]; split <;> split <;> omega

/-- C3 amended witness: with P = 10 ms and a callback that took 2 ms the
code's microsecond wait equals the spec's millisecond formula. -/
theorem C3_wait_floor_amended_inst :
    timer_next_wait_us 10 (1000 * 2) = 1000 * spec_next_wait_ms 10 2 :=
  (C3_wait_floor_amended 10 0 2).2.2 (by decide)

/-- C4: the correlated wait of `send_hello` returns the empty response on
timeout; when woken during shutdown (`running_` cleared) it returns the
empty response; and when a reply with the matching request id was
dispatched by `on_hello_reply` before the deadline, the woken wait
returns that reply's decoded response. -/
theorem C4_send_hello_wait_cases (st : CorrelatorState) (req_id : Nat) (payload : List Nat)
    (r : HelloResponse) :
    send_hello_wait st .timeout = empty_response ∧
    (st.running = false → send_hello_wait st .notified = empty_response) ∧
    (st.running = true → st.hello_req_id = req_id →
      deserialize_hello_response payload = some r →
      (on_hello_reply st req_id .E_OK payload).2 = true ∧
      send_hello_wait (on_hello_reply st req_id .E_OK payload).1 .notified = r) := by
  refine ⟨rfl, fun h => ?_, fun hrun hid hdec => ?_⟩
  · simp [send_hello_wait, h]
  · simp [on_hello_reply, hid, hdec, send_hello_wait, hrun]

/-- C4 witness: a matching reply woke the waiter and resolved the wait
with the decoded response. -/
theorem C4_send_hello_wait_cases_inst :
    (on_hello_reply ⟨true, 7, ⟨[]⟩⟩ 7 .E_OK [72, 105, 0]).2 = true ∧
    send_hello_wait (on_hello_reply ⟨true, 7, ⟨[]⟩⟩ 7 .E_OK [72, 105, 0]).1 .notified =
      ⟨[72, 105]⟩ :=
  (C4_send_hello_wait_cases ⟨true, 7, ⟨[]⟩⟩ 7 [72, 105, 0] ⟨[72, 105]⟩).2.2 rfl rfl (by decide)

/-- C5: `notify_event` always reports success, suppresses the emission
(no serialization, no transport notify) exactly when the service is not
offered, not running, or the subscriber count is ≤ 0, and otherwise
forwards the event serialized into its timer-id-scoped payload. -/
theorem C5_notify_event_gate (st : NotifyState) (event : HelloEvent) :
    (notify_event st event).1 = true ∧
    ((notify_event st event).2 = none ↔
      ¬(st.is_offered = true ∧ st.running = true ∧ 0 < st.subscribe_count)) ∧
    (st.is_offered = true → st.running = true → 0 < st.subscribe_count →
      (notify_event st event).2 = some (event.timer_id, serialize_hello_event event)) := by
  obtain ⟨o, r, c⟩ := st
  rw [notify_event_eq]
  refine ⟨?_, ?_, fun ho hr hc3 => ?_⟩
  · split <;> rfl
  · split <;> rename_i h <;> simp [h]
  · rw [if_pos ⟨ho, hr, hc3⟩]

/-- C5 witness: with the service offered, running and one subscriber, a
concrete event is serialized and forwarded. -/
theorem C5_notify_event_gate_inst :
    (notify_event ⟨true, true, 1⟩ ⟨⟨1, 2, 3, 4⟩, 0⟩).2 =
      some (0, serialize_hello_event ⟨⟨1, 2, 3, 4⟩, 0⟩) :=
  (C5_notify_event_gate ⟨true, true, 1⟩ ⟨⟨1, 2, 3, 4⟩, 0⟩).2.2 rfl rfl (by decide)

/-- C6 counterexample: the claim says the subscriber count stays ≥ 0 for
every sequence of notifications starting from 0, but the handler
decrements without a guard: a single unsubscribe notification drives the
count to −1. -/
theorem C6_subscriber_count_counterexample : run_subscriptions 0 [false] < 0 := by decide

/-- C6 amended: the count is incremented on each subscribe and
decremented on each unsubscribe; it stays ≥ 0 throughout exactly for
sequences in which every prefix contains at least as many subscribes as
unsubscribes (an unmatched unsubscribe drives it negative). -/
theorem C6_subscriber_count_amended (evs : List Bool)
    (h : ∀ n, n ≤ evs.length → (evs.take n).count false ≤ (evs.take n).count true) :
    (∀ c : Int, on_subscription_count c true = c + 1 ∧ on_subscription_count c false = c - 1) ∧
    (∀ n, n ≤ evs.length → 0 ≤ run_subscriptions 0 (evs.take n)) := by
  refine ⟨fun c => ⟨rfl, rfl⟩, fun n hn => ?_⟩
  have hc := h n hn
  rw [run_subscriptions_eq]
  omega

/-- C6 amended witness: for the trace subscribe-then-unsubscribe every
intermediate count is non-negative. -/
theorem C6_subscriber_count_amended_inst : 0 ≤ run_subscriptions 0 ([true, false].take 2) :=
  (C6_subscriber_count_amended [true, false] (by decide)).2 2 (by decide)

/-- C7: on a reply whose echoed request id matches the active correlation
id, `on_hello_reply` stores the decoded response, clears the correlation
id and wakes the waiter; on a mismatch it leaves the state unchanged and
wakes no one. -/
theorem C7_on_hello_reply_frame (st : CorrelatorState) (req_id : Nat) (rc : ReturnCode)
    (payload : List Nat) (r : HelloResponse) :
    (st.hello_req_id = req_id → rc = .E_OK → deserialize_hello_response payload = some r →
      on_hello_reply st req_id rc payload =
        ({ st with hello_req_id := 0, hello_resp := r }, true)) ∧
    (st.hello_req_id ≠ req_id → on_hello_reply st req_id rc payload = (st, false)) := by
  constructor
  · intro hid hrc hdec
    simp [on_hello_reply, hid, hrc, hdec]
  · intro hid
    simp [on_hello_reply, hid]

/-- C7 witness: a matching reply stores the decoded response, clears the
id and notifies; a mismatched one changes nothing and notifies no one. -/
theorem C7_on_hello_reply_frame_inst :
    on_hello_reply ⟨true, 9, ⟨[]⟩⟩ 9 .E_OK [104, 105, 0] = (⟨true, 0, ⟨[104, 105]⟩⟩, true) ∧
    on_hello_reply ⟨true, 9, ⟨[]⟩⟩ 8 .E_OK [104, 105, 0] = (⟨true, 9, ⟨[]⟩⟩, false) := by
  constructor
  · exact ((C7_on_hello_reply_frame ⟨true, 9, ⟨[]⟩⟩ 9 .E_OK [104, 105, 0] ⟨[104, 105]⟩).1
      rfl rfl (by decide)).trans (by decide)
  · exact (C7_on_hello_reply_frame ⟨true, 9, ⟨[]⟩⟩ 8 .E_OK [104, 105, 0] ⟨[104, 105]⟩).2
      (by decide)

/-- C8: decoding a timer event fails exactly when the input is shorter
than 17 bytes; any input of at least 17 bytes decodes successfully (the
tag byte at position 16 is not validated) and only the first 17 bytes
are consumed. -/
theorem C8_decode_event_boundary (data : List Nat) :
    (deserialize_hello_event data = none ↔ data.length < 17) ∧
    (17 ≤ data.length → deserialize_hello_event data =
      some ⟨⟨toInt32 (bytes_to_long (data.getD 0 0) (data.getD 1 0) (data.getD 2 0)
               (data.getD 3 0)),
             toInt32 (bytes_to_long (data.getD 4 0) (data.getD 5 0) (data.getD 6 0)
               (data.getD 7 0)),
             toInt32 (bytes_to_long (data.getD 8 0) (data.getD 9 0) (data.getD 10 0)
               (data.getD 11 0)),
             toInt32 (bytes_to_long (data.getD 12 0) (data.getD 13 0) (data.getD 14 0)
               (data.getD 15 0))⟩,
            data.getD 16 0⟩) ∧
    (17 ≤ data.length →
      deserialize_hello_event data = deserialize_hello_event (data.take 17)) := by
  refine ⟨⟨fun hnone => ?_, fun hlt => ?_⟩, fun h => deserialize_hello_event_of_long data h,
    fun h => ?_⟩
  · by_contra hge
    rw [deserialize_hello_event_of_long data (by omega)] at hnone
    exact Option.some_ne_none _ hnone
  · simp [deserialize_hello_event, HELLO_EVENT_PAYLOAD_SIZE, hlt]
  · have h17 : 17 ≤ (data.take 17).length := by
      rw [List.length_take]; exact le_min (le_refl 17) h
    rw [deserialize_hello_event_of_long data h, deserialize_hello_event_of_long _ h17]
    simp [getD_take_of_lt]

/-- C8 witness: a 17-byte input whose tag byte 255 is outside the four
known timer ids still decodes. -/
theorem C8_decode_event_boundary_inst :
    deserialize_hello_event [0, 0, 0, 0, 0, 0, 0, 0, 0, 0, 0, 0, 0, 0, 0, 0, 255] =
      some ⟨⟨0, 0, 0, 0⟩, 255⟩ := by
  have h := (C8_decode_event_boundary
    [0, 0, 0, 0, 0, 0, 0, 0, 0, 0, 0, 0, 0, 0, 0, 0, 255]).2.1 (by decide)
  exact h.trans (by decide)

/-- C9 (code bug): on a length-prefixed payload whose 4-byte prefix is 0
(here `[0,0,0,0,65]`), the source's only validation
`str_size > data_size - 4` passes and `deserialize_string` reaches the
success path requesting `(size_t)(0 - 1)` = 2^64 − 1 content bytes —
far more than the 1 byte available — instead of failing with a
malformed-input error as the claim requires. -/
theorem C9_deserialize_string_zero_length_bug :
    deserialize_string [0, 0, 0, 0, 65] 0 = some (18446744073709551615, [65]) ∧
    [0, 0, 0, 0, 65].length - 4 < 18446744073709551615 := by decide

/-- C10: `deserialize_int32` is total: with fewer than 5 bytes past the
offset it returns −1 and leaves the offset unchanged; otherwise it
returns the big-endian int32 at the offset and advances by 4; a buffer of
four 0xFF bytes decodes successfully to −1, indistinguishable from the
failure return. -/
theorem C10_deserialize_int32_total (data : List Nat) (index : Nat) :
    (data.length ≤ index + 4 → deserialize_int32 data index = (-1, index)) ∧
    (index + 4 < data.length → deserialize_int32 data index =
      (toInt32 (bytes_to_long (data.getD index 0) (data.getD (index + 1) 0)
        (data.getD (index + 2) 0) (data.getD (index + 3) 0)), index + 4)) ∧
    deserialize_int32 [255, 255, 255, 255, 0] 0 = (-1, 4) := by
  refine ⟨fun h => ?_, fun h => deserialize_int32_as_success data index h, by decide⟩
  unfold deserialize_int32
  rw [if_pos (by omega)]

/-- C10 witness: a failed read at offset 1 of a 5-byte buffer returns −1
without advancing; a successful read at offset 0 returns the big-endian
value and advances to 4. -/
theorem C10_deserialize_int32_total_inst :
    deserialize_int32 [1, 2, 3, 4, 5] 1 = (-1, 1) ∧
    deserialize_int32 [1, 2, 3, 4, 5] 0 = (toInt32 (bytes_to_long 1 2 3 4), 4) := by
  constructor
  · exact (C10_deserialize_int32_total [1, 2, 3, 4, 5] 1).1 (by decide)
  · exact ((C10_deserialize_int32_total [1, 2, 3, 4, 5] 0).2.1 (by decide)).trans (by decide)

end HelloExample
